import Mathlib

/-!
Verification development for the SMS attachment renderer
(`apps/sms/js/attachment_renderer.js`).

The JavaScript module is shallowly embedded below:
* JS promise settlement is modelled with `Except` (a rejection reason may be
  `undefined`, hence `Option JsError` where the code uses `Promise.reject()`);
* the DOM is modelled as a store of nodes addressed by numeric ids, holding
  exactly the node state the renderer reads or writes (class list, the
  `data-attachment-type` attribute, hosted markup, the background image set on
  the `.thumbnail` descendant, and — for iframes — the content-document body);
* the external collaborators (`Template`, `ImageUtils`, `window.URL`,
  `navigator.mozL10n`, the click wiring) are opaque parameters gathered in an
  `Env` record; a successful template interpolation is represented by the
  pair of template id and interpolation arguments, which is all the renderer
  ever feeds it;
* JS numbers appearing in the module are exact here: byte sizes are naturals
  and the arithmetic of `getSizeForL10n`, `MAX_THUMBNAIL_GENERATION_SIZE` and
  the downsample scale is over `ℚ` (every quantity involved is a dyadic
  rational, represented exactly by a JS double, so `ℚ` loses nothing).
-/

/-- A JavaScript exception value (only its identity matters here). -/
structure JsError where
  msg : String
deriving DecidableEq, Repr

/-- An attachment blob: opaque binary content with a known byte size. -/
structure Blob where
  size : Nat
deriving DecidableEq, Repr

/-- The attachment descriptor, as read by the renderer: it reads the fields
`type`, `size` (a top-level field, distinct from `blob.size`), `blob`, `name`
and `isDraft`. -/
structure Attachment where
  type : String
  size : Nat
  blob : Blob
  name : String
  isDraft : Bool
deriving DecidableEq, Repr

/-- Result of `getSizeForL10n`: a localization id and the formatted numeric
argument `n` (the code wraps `n` in an args object and JSON-stringifies it;
the string `n` is its only content). -/
structure SizeL10n where
  l10nId : String
  n : String
deriving DecidableEq, Repr

/-- `Number.prototype.toFixed(1)` for a non-negative dyadic rational held
exactly by a JS double: the nearest multiple of 1/10, ties away from zero
(ECMA-262 picks the larger candidate). -/
def toFixed1 (q : ℚ) : String :=
  let n : Int := ⌊10 * q + 1 / 2⌋
  toString (n / 10) ++ "." ++ toString (n % 10)

/-- Source `getSizeForL10n(size)`: convert the byte size to KB; below 1000 KB
use the kilobyte key, otherwise the megabyte key, each with one decimal. -/
def getSizeForL10n (size : Nat) : SizeL10n :=
  let sizeKB : ℚ := size / 1024
  let sizeMB : ℚ := sizeKB / 1024
  if sizeKB < 1000 then
    { l10nId := "attachmentSize", n := toFixed1 sizeKB }
  else
    { l10nId := "attachmentSizeMB", n := toFixed1 sizeMB }

/-- JS `String.prototype.lastIndexOf` for a single character: the index of the
last occurrence, or -1 when absent. -/
def lastIndexOf (c : Char) : List Char → Int
  | [] => -1
  | a :: rest =>
    let r := lastIndexOf c rest
    if 0 ≤ r then r + 1
    else if a = c then 0 else -1

/-- Source `name.slice(name.lastIndexOf('/') + 1)` on the character list of
the name (the slice argument is always ≥ 0 since `lastIndexOf` is ≥ -1). -/
def displayedFileNameL (name : List Char) : List Char :=
  name.drop (lastIndexOf '/' name + 1).toNat

/-- The displayed file name of an attachment name, as a string. -/
def displayedFileName (name : String) : String :=
  ⟨displayedFileNameL name.data⟩

/-- The interpolation arguments `_getBaseMarkup` passes to the template. -/
structure TemplateArgs where
  type : String
  errorClass : String
  fileName : String
  sizeL10nId : String
  sizeL10nArgsN : String
deriving DecidableEq, Repr

/-- A successfully interpolated markup string is determined by the template id
and the arguments fed to it; we represent it by that pair. -/
structure Markup where
  templateId : String
  args : TemplateArgs
deriving DecidableEq, Repr

/-- The arguments `_getBaseMarkup` builds for attachment `a`:
type tag, `corrupted` error class when `hasError` is truthy, the basename of
`name`, and the size label pieces computed from `blob.size`. -/
def argsOf (a : Attachment) (hasError : Bool) : TemplateArgs :=
  let sizeL10n := getSizeForL10n a.blob.size
  { type := a.type
    errorClass := if hasError then "corrupted" else ""
    fileName := displayedFileName a.name
    sizeL10nId := sizeL10n.l10nId
    sizeL10nArgsN := sizeL10n.n }

/-- Image metadata resolved by `ImageUtils.getSizeAndType`. -/
structure ImageData where
  width : Nat
  height : Nat
  mimeType : String
deriving DecidableEq, Repr

/-- The external collaborators and ambient values the renderer depends on.
`interpolate id args = some e` models `Template(id).interpolate(args)`
throwing `e`; `none` models success. `hasThumbnailNode m` tells whether the
markup `m`, once parsed into the content container, yields a node matching
the `.thumbnail` selector. The three `Option JsError` fields model the
fallible steps of the draft load handler. -/
structure Env where
  interpolate : String → TemplateArgs → Option JsError
  getSizeAndType : Blob → Except JsError ImageData
  sizeNoMoreThan : ℚ → String
  createObjectURL : Blob → String
  devicePixelRatio : ℚ
  hasThumbnailNode : Markup → Bool
  interpolateDraft : Markup → Option JsError
  translateFragment : Option JsError
  attachClick : Option JsError

/-- Source `_getBaseMarkup(templateId, hasError)`: interpolates the template;
a throw inside `Template(..).interpolate` surfaces as an exception. -/
def getBaseMarkup (env : Env) (a : Attachment) (templateId : String)
    (hasError : Bool) : Except JsError Markup :=
  let args := argsOf a hasError
  match env.interpolate templateId args with
  | some e => .error e
  | none => .ok ⟨templateId, args⟩

/-- Source constant `MAX_THUMBNAIL_GENERATION_SIZE = 1.5 * 1024 * 1024`.
The double `1.5 * 1024 * 1024` is exactly the integer 1572864, and byte
sizes are integers, so the JS `<` comparison against it coincides with this
natural-number comparison. -/
def MAX_THUMBNAIL_GENERATION_SIZE : Nat := 3 * 1024 * 1024 / 2

/-- Source constant `THUMBNAIL_SIZE = 100 * window.devicePixelRatio`. -/
def THUMBNAIL_SIZE (env : Env) : ℚ := 100 * env.devicePixelRatio

/-- Source `getThumbnail()`: probe the blob's size and type; on success,
resolve with the blob's object URL concatenated with the downsample-hint
fragment for scale `THUMBNAIL_SIZE / min(width, height)`; the probe's
rejection passes through. -/
def getThumbnail (env : Env) (blob : Blob) : Except JsError String :=
  match env.getSizeAndType blob with
  | .error e => .error e
  | .ok data =>
    .ok (env.createObjectURL blob ++
      env.sizeNoMoreThan
        (THUMBNAIL_SIZE env / min (data.width : ℚ) (data.height : ℚ)))

/-- The DOM state of one node, restricted to what the renderer touches:
tag name, the `sandbox` attribute, the class list, the
`data-attachment-type` dataset entry, the markup last assigned as inner
HTML, the background image assigned to the `.thumbnail` descendant (if the
hosted markup has one), and — for iframes — the id of the content-document
body node. -/
structure Node where
  tag : String
  sandboxAttr : Option String
  classes : List String
  attachmentTypeData : Option String
  innerHTML : Option Markup
  thumbnailBg : Option String
  contentBody : Option Nat
deriving DecidableEq, Repr

/-- A freshly created element. -/
def Node.empty (tag : String) : Node :=
  { tag := tag
    sandboxAttr := none
    classes := []
    attachmentTypeData := none
    innerHTML := none
    thumbnailBg := none
    contentBody := none }

/-- `classList.add`: appends the class unless already present. -/
def Node.classAdd (c : String) (n : Node) : Node :=
  { n with classes := if c ∈ n.classes then n.classes else n.classes ++ [c] }

/-- The document: a store of nodes addressed by numeric ids, plus a counter
of how many times a strategy's `createAttachmentContainer` ran (an
observation used to state idempotence, not a DOM feature). -/
structure Dom where
  nodes : Nat → Option Node
  nextId : Nat
  createCalls : Nat

/-- `document.createElement`: allocates a fresh node id. -/
def Dom.newNode (d : Dom) (tag : String) : Nat × Dom :=
  (d.nextId,
    { d with
      nodes := fun j => if j = d.nextId then some (Node.empty tag) else d.nodes j
      nextId := d.nextId + 1 })

/-- Update the node stored at `i` in place. -/
def Dom.setNode (d : Dom) (i : Nat) (f : Node → Node) : Dom :=
  { d with nodes := fun j => if j = i then (d.nodes j).map f else d.nodes j }

/-- The two render strategies of the source's `RENDERERS` table. -/
inductive RendererKind
  | draft
  | base
deriving DecidableEq, Repr

/-- The strategies' `createAttachmentContainer`: the base strategy creates a
`div`; the draft strategy creates an iframe with
`sandbox="allow-same-origin"`. The iframe's content-document body (which
materialises in the browser when the frame loads `about:blank`) is allocated
here as well, so that the load handler has a node to resolve with. Each
invocation bumps `createCalls`. -/
def RendererKind.createAttachmentContainer :
    RendererKind → Dom → Nat × Dom
  | .base, d =>
    let p := d.newNode "div"
    (p.1, { p.2 with createCalls := p.2.createCalls + 1 })
  | .draft, d =>
    let p := d.newNode "iframe"
    let q := p.2.newNode "body"
    let d2 := q.2.setNode p.1 (fun n =>
      { n with sandboxAttr := some "allow-same-origin", contentBody := some q.1 })
    (p.1, { d2 with createCalls := d2.createCalls + 1 })

/-- The renderer instance: the attachment, the strategy bound at
construction, and the memoized container id. -/
structure AttachmentRenderer where
  attachment : Attachment
  renderer : RendererKind
  attachmentContainer : Option Nat
deriving DecidableEq, Repr

/-- The source constructor (exported as `AttachmentRenderer.for`): picks the
draft strategy iff `attachment.isDraft`; no container is created yet. -/
def AttachmentRenderer.forAttachment (a : Attachment) : AttachmentRenderer :=
  { attachment := a
    renderer := if a.isDraft then .draft else .base
    attachmentContainer := none }

/-- Source `_createAttachmentContainer()`: delegate to the strategy, then
add the `attachment-container` class and record the attachment type in the
dataset. -/
def createAttachmentContainerOf (r : AttachmentRenderer) (d : Dom) :
    Nat × Dom :=
  let p := r.renderer.createAttachmentContainer d
  let d2 := p.2.setNode p.1 (Node.classAdd "attachment-container")
  let d3 := d2.setNode p.1 (fun n =>
    { n with attachmentTypeData := some r.attachment.type })
  (p.1, d3)

/-- Source `getAttachmentContainer()`: create and memoize the container on
first access; later calls return the memoized node untouched. -/
def getAttachmentContainer (r : AttachmentRenderer) (d : Dom) :
    Nat × AttachmentRenderer × Dom :=
  match r.attachmentContainer with
  | some id => (id, r, d)
  | none =>
    let p := createAttachmentContainerOf r d
    (p.1, { r with attachmentContainer := some p.1 }, p.2)

/-- Settlement state of a JS promise. -/
inductive PromiseState (α : Type)
  | pending
  | resolved (v : α)
  | rejected (e : JsError)
deriving DecidableEq, Repr

/-- Observable state of the draft strategy's `renderTo` machinery: whether
the one-shot `load` handler is still registered, how many times it has run,
and the settlement of the returned deferred promise (resolved with the id
of the content-document body). -/
structure DraftRenderState where
  loadHandlerAttached : Bool
  handlerRuns : Nat
  promise : PromiseState Nat
deriving DecidableEq, Repr

/-- What the draft load handler's try-block does after removing itself: the
wrapper-template interpolation and injection (step 2), localization
post-processing (step 3) and click-listener attachment (step 4), each of
which may throw; the first thrown exception is the handler's outcome. -/
def draftHandlerOutcome (env : Env) (m : Markup) : Except JsError Unit :=
  match env.interpolateDraft m with
  | some e => .error e
  | none =>
    match env.translateFragment with
    | some e => .error e
    | none =>
      match env.attachClick with
      | some e => .error e
      | none => .ok ()

/-- The draft strategy's `renderTo` before any load event: the load handler
is registered, the frame is navigated to `about:blank`, and the deferred
promise is still pending. -/
def draftRenderTo : DraftRenderState :=
  { loadHandlerAttached := true, handlerRuns := 0, promise := .pending }

/-- Delivery of a `load` event to the container while `renderTo`'s handler
may be registered. If it is, the handler runs once: it first removes itself
(the first statement of the try-block), then performs the fallible steps;
success resolves the deferred with the content-document body `bodyId`, a
throw rejects it with the exception. Without a registered handler the event
is ignored. -/
def fireLoad (env : Env) (m : Markup) (bodyId : Nat)
    (st : DraftRenderState) : DraftRenderState :=
  if st.loadHandlerAttached then
    let st2 : DraftRenderState :=
      { loadHandlerAttached := false
        handlerRuns := st.handlerRuns + 1
        promise := st.promise }
    match draftHandlerOutcome env m with
    | .ok _ => { st2 with promise := .resolved bodyId }
    | .error e => { st2 with promise := .rejected e }
  else st

/-- The record built by the success / failure branches of `render()`:
markup, decoration class and (in the success branch) the thumbnail URL.
`url = none` models the absent (`undefined`) field of the failure branch. -/
structure RenderData where
  markup : Markup
  cssClass : String
  url : Option String
deriving DecidableEq, Repr

/-- JS string coercion used when `data.url` is interpolated into
`url("...")`: an `undefined` field prints as `undefined`. -/
def jsStringOf : Option String → String
  | some s => s
  | none => "undefined"

/-- The background-image value assigned to the `.thumbnail` node. -/
def bgUrlOf (url : Option String) : String :=
  "url(\"" ++ jsStringOf url ++ "\")"

/-- The conditional thumbnail attempt of `render()` (lines 153-155): only an
attachment whose `type` is exactly `img` and whose top-level `size` is below
`MAX_THUMBNAIL_GENERATION_SIZE` gets `getThumbnail()`; anything else gets
`Promise.reject()` (a rejection carrying `undefined`). The second component
counts invocations of the metadata probe `ImageUtils.getSizeAndType`, which
`getThumbnail` calls exactly once. -/
def thumbnailStage (env : Env) (a : Attachment) :
    Except (Option JsError) String × Nat :=
  if a.type = "img" ∧ a.size < MAX_THUMBNAIL_GENERATION_SIZE then
    ((getThumbnail env a.blob).mapError some, 1)
  else
    (.error none, 0)

/-- The `.then(success).catch(failure)` pair of `render()` applied to the
thumbnail promise. The success handler builds the preview markup; an
exception it throws is a rejection of the intermediate promise, so the
`catch` handler sees it too. The `catch` handler builds the no-preview
markup with `hasError = !!error`; an exception thrown there is not caught
by anything downstream. -/
def branchStage (env : Env) (a : Attachment)
    (t : Except (Option JsError) String) : Except JsError RenderData :=
  let afterThen : Except (Option JsError) RenderData :=
    match t with
    | .error e => .error e
    | .ok url =>
      match getBaseMarkup env a "attachment-preview-tmpl" false with
      | .error e => .error (some e)
      | .ok m => .ok { markup := m, cssClass := "preview", url := some url }
  match afterThen with
  | .ok dat => .ok dat
  | .error err =>
    match getBaseMarkup env a "attachment-nopreview-tmpl" err.isSome with
    | .error e => .error e
    | .ok m => .ok { markup := m, cssClass := "nopreview", url := none }

/-- Delegation to the strategy's `renderTo`, at the point where its promise
has settled. The base strategy assigns the markup as the container's inner
HTML and resolves with the container itself. For the draft strategy the
settlement is that of the load handler (`fireLoad` above, once the `load`
event has fired): on success the content-document body hosts the markup and
is the content container; a thrown exception is the rejection. -/
def renderToStage (env : Env) (k : RendererKind) (containerId : Nat)
    (m : Markup) (d : Dom) : Except JsError Nat × Dom :=
  match k with
  | .base =>
    (.ok containerId, d.setNode containerId (fun n => { n with innerHTML := some m }))
  | .draft =>
    match draftHandlerOutcome env m with
    | .error e => (.error e, d)
    | .ok _ =>
      match (d.nodes containerId).bind Node.contentBody with
      | none => (.error ⟨"no content document"⟩, d)
      | some bodyId =>
        (.ok bodyId, d.setNode bodyId (fun n => { n with innerHTML := some m }))

/-- The final `.then` of `render()`: add the decoration class to the outer
container, delegate to the strategy, then add the same class to the content
container and, if a `.thumbnail` node exists inside it, set that node's
background image to `url("<data.url>")`. Returns the overall settlement,
the resulting document and the content container id when reached. -/
def finalStage (env : Env) (k : RendererKind) (containerId : Nat)
    (dat : RenderData) (d : Dom) : Except JsError Unit × Dom × Option Nat :=
  let d1 := d.setNode containerId (Node.classAdd dat.cssClass)
  match renderToStage env k containerId dat.markup d1 with
  | (.error e, d2) => (.error e, d2, none)
  | (.ok contentId, d2) =>
    let d3 := d2.setNode contentId (Node.classAdd dat.cssClass)
    let bg := bgUrlOf dat.url
    let d4 :=
      if env.hasThumbnailNode dat.markup then
        d3.setNode contentId (fun n => { n with thumbnailBg := some bg })
      else d3
    (.ok (), d4, some contentId)

/-- Everything observable about one `render()` run: the settlement of the
returned promise, the final document and renderer, the container id, the
number of metadata-probe invocations, and the intermediate outcomes of the
thumbnail stage and of the markup branch. -/
structure RenderRun where
  result : Except JsError Unit
  dom : Dom
  renderer : AttachmentRenderer
  containerId : Nat
  probeCalls : Nat
  thumbnailOutcome : Except (Option JsError) String
  branchData : Except JsError RenderData
  contentId : Option Nat

/-- Source `render()`: obtain the container, run the conditional thumbnail
stage, branch on its settlement to build markup, and run the final
decoration stage. When the branch stage rejects (the no-preview markup
threw), the final `.then` is skipped and its rejection is the result. -/
def render (env : Env) (r : AttachmentRenderer) (d : Dom) : RenderRun :=
  let c := getAttachmentContainer r d
  let ts := thumbnailStage env c.2.1.attachment
  let bd := branchStage env c.2.1.attachment ts.1
  match bd with
  | .error e =>
    { result := .error e
      dom := c.2.2
      renderer := c.2.1
      containerId := c.1
      probeCalls := ts.2
      thumbnailOutcome := ts.1
      branchData := .error e
      contentId := none }
  | .ok dat =>
    let f := finalStage env c.2.1.renderer c.1 dat c.2.2
    { result := f.1
      dom := f.2.1
      renderer := c.2.1
      containerId := c.1
      probeCalls := ts.2
      thumbnailOutcome := ts.1
      branchData := .ok dat
      contentId := f.2.2 }

/-- An empty document, used as the starting state of concrete runs. -/
def dom0 : Dom :=
  { nodes := fun _ => none, nextId := 0, createCalls := 0 }

/-- A benign concrete environment: every collaborator succeeds, the display
has pixel ratio 1, and the preview template is the one containing a
`.thumbnail` node. -/
def env0 : Env :=
  { interpolate := fun _ _ => none
    getSizeAndType := fun _ => .ok { width := 4, height := 2, mimeType := "image/jpeg" }
    sizeNoMoreThan := fun _ => "#-moz-samplesize=2"
    createObjectURL := fun _ => "blob:app/0001"
    devicePixelRatio := 1
    hasThumbnailNode := fun m => m.templateId = "attachment-preview-tmpl"
    interpolateDraft := fun _ => none
    translateFragment := none
    attachClick := none }

/-- `env0` with a metadata probe that rejects (undecodable image). -/
def envProbeFails : Env :=
  { env0 with getSizeAndType := fun _ => .error ⟨"corrupt image"⟩ }

/-- `env0` with a preview-template interpolation that throws. -/
def envPreviewThrows : Env :=
  { env0 with interpolate := fun tid _ =>
      if tid = "attachment-preview-tmpl" then some ⟨"preview template missing"⟩
      else none }

/-- `env0` with a no-preview-template interpolation that throws. -/
def envNopreviewThrows : Env :=
  { env0 with interpolate := fun tid _ =>
      if tid = "attachment-nopreview-tmpl" then some ⟨"fallback template missing"⟩
      else none }

/-- `env0` with a localization step that throws inside the draft handler. -/
def envTranslateThrows : Env :=
  { env0 with translateFragment := some ⟨"l10n failure"⟩ }

/-- A small image attachment (both size fields below the ceiling). -/
def imgSmall : Attachment :=
  { type := "img", size := 100, blob := { size := 100 }
    name := "a/b/c.png", isDraft := false }

/-- The same small image attachment in draft context. -/
def imgSmallDraft : Attachment :=
  { imgSmall with isDraft := true }

/-- An image whose top-level `size` sits exactly at the 1.5 MiB ceiling
while its blob is tiny. -/
def imgTopLevelBig : Attachment :=
  { type := "img", size := 1572864, blob := { size := 100 }
    name := "photo.png", isDraft := false }

/-- A small non-image attachment. -/
def vidSmall : Attachment :=
  { type := "video", size := 10, blob := { size := 10 }
    name := "v.mp4", isDraft := false }

/-- A concrete markup value used to exercise the draft load machinery. -/
def markup0 : Markup :=
  ⟨"attachment-preview-tmpl", argsOf imgSmallDraft false⟩

theorem Dom.setNode_nodes (d : Dom) (i j : Nat) (f : Node → Node) :
    (d.setNode i f).nodes j = if j = i then (d.nodes j).map f else d.nodes j := rfl

theorem Node.classAdd_contentBody (c : String) (n : Node) :
    (Node.classAdd c n).contentBody = n.contentBody := rfl

theorem Node.mem_classAdd_self (c : String) (n : Node) :
    c ∈ (Node.classAdd c n).classes := by
  unfold Node.classAdd
  by_cases h : c ∈ n.classes <;> simp [h]

theorem Node.mem_classAdd_of_mem (c c2 : String) (n : Node) (h : c ∈ n.classes) :
    c ∈ (Node.classAdd c2 n).classes := by
  unfold Node.classAdd
  by_cases h2 : c2 ∈ n.classes <;> simp [h2, h]

theorem getAttachmentContainer_attachment (r : AttachmentRenderer) (d : Dom) :
    ((getAttachmentContainer r d).2.1).attachment = r.attachment := by
  cases h : r.attachmentContainer <;> simp [getAttachmentContainer, h]

theorem getAttachmentContainer_renderer (r : AttachmentRenderer) (d : Dom) :
    ((getAttachmentContainer r d).2.1).renderer = r.renderer := by
  cases h : r.attachmentContainer <;> simp [getAttachmentContainer, h]

theorem getAttachmentContainer_memo (r : AttachmentRenderer) (d : Dom) :
    ((getAttachmentContainer r d).2.1).attachmentContainer
      = some (getAttachmentContainer r d).1 := by
  cases h : r.attachmentContainer <;> simp [getAttachmentContainer, h]

theorem getAttachmentContainer_of_some (r : AttachmentRenderer) (d : Dom)
    (id : Nat) (h : r.attachmentContainer = some id) :
    getAttachmentContainer r d = (id, r, d) := by
  simp [getAttachmentContainer, h]

/-- State of the freshly created container after a first
`getAttachmentContainer` call: one strategy invocation, the
`attachment-container` class present exactly once, the attachment type
recorded; for the draft strategy the iframe carries its content body. -/
theorem fresh_container_state (r : AttachmentRenderer) (d : Dom)
    (h : r.attachmentContainer = none) :
    (getAttachmentContainer r d).2.2.createCalls = d.createCalls + 1 ∧
    (getAttachmentContainer r d).1 = d.nextId ∧
    (∃ n, (getAttachmentContainer r d).2.2.nodes d.nextId = some n ∧
      n.classes = ["attachment-container"] ∧
      n.attachmentTypeData = some r.attachment.type ∧
      n.thumbnailBg = none ∧
      (r.renderer = .base → n.contentBody = none) ∧
      (r.renderer = .draft →
        n.contentBody = some (d.nextId + 1) ∧
        (getAttachmentContainer r d).2.2.nodes (d.nextId + 1)
          = some (Node.empty "body"))) := by
  cases hk : r.renderer <;>
    simp [getAttachmentContainer, h, createAttachmentContainerOf, hk,
      RendererKind.createAttachmentContainer, Dom.newNode, Dom.setNode,
      Node.classAdd, Node.empty]

/-- C5: `getAttachmentContainer()` is idempotent: a second call on the same
renderer instance returns the identical node id and leaves renderer and
document untouched; the first call bumps the strategy's container-creation
count by exactly one and applies the two universal decorations exactly
once: the container node's class list is exactly
`["attachment-container"]` and its `data-attachment-type` records the
attachment's type. -/
theorem getAttachmentContainer_idempotent (a : Attachment) (d : Dom) :
    getAttachmentContainer
        ((getAttachmentContainer (AttachmentRenderer.forAttachment a) d).2.1)
        ((getAttachmentContainer (AttachmentRenderer.forAttachment a) d).2.2)
      = ((getAttachmentContainer (AttachmentRenderer.forAttachment a) d).1,
         (getAttachmentContainer (AttachmentRenderer.forAttachment a) d).2.1,
         (getAttachmentContainer (AttachmentRenderer.forAttachment a) d).2.2) ∧
    (getAttachmentContainer (AttachmentRenderer.forAttachment a) d).2.2.createCalls
      = d.createCalls + 1 ∧
    ∃ n, (getAttachmentContainer (AttachmentRenderer.forAttachment a) d).2.2.nodes
        ((getAttachmentContainer (AttachmentRenderer.forAttachment a) d).1) = some n ∧
      n.classes = ["attachment-container"] ∧
      n.attachmentTypeData = some a.type := by
  refine ⟨getAttachmentContainer_of_some _ _ _ (getAttachmentContainer_memo _ _),
    (fresh_container_state _ d rfl).1, ?_⟩
  obtain ⟨-, h1, n, hn, hc, ht, -⟩ := fresh_container_state
    (AttachmentRenderer.forAttachment a) d rfl
  rw [h1]
  exact ⟨n, hn, hc, ht⟩

theorem sizeKB_lt_1000_iff (size : Nat) :
    (size : ℚ) / 1024 < 1000 ↔ size < 1024000 := by
  rw [div_lt_iff₀ (by norm_num : (0 : ℚ) < 1024)]
  norm_num

/-- C6: the size label divides the byte count by 1024; strictly below
1000 KB the kilobyte key is used with the KB value to one decimal place,
otherwise the megabyte key with the MB value (KB / 1024) to one decimal
place; in particular 1024000 bytes already selects the megabyte key (the
boundary is 1000 KB, not 1 MiB = 1048576 bytes). -/
theorem getSizeForL10n_label_boundary :
    (∀ size : Nat,
      ((getSizeForL10n size).l10nId = "attachmentSize" ↔ size < 1024000) ∧
      ((getSizeForL10n size).l10nId = "attachmentSizeMB" ↔ 1024000 ≤ size) ∧
      (size < 1024000 →
        getSizeForL10n size = ⟨"attachmentSize", toFixed1 ((size : ℚ) / 1024)⟩) ∧
      (1024000 ≤ size →
        getSizeForL10n size
          = ⟨"attachmentSizeMB", toFixed1 ((size : ℚ) / 1024 / 1024)⟩)) ∧
    (getSizeForL10n 1024000).l10nId = "attachmentSizeMB" ∧
    1024000 < 1048576 := by
  have hne : ("attachmentSize" : String) ≠ "attachmentSizeMB" := by decide
  refine ⟨fun size => ?_, ?_, by norm_num⟩
  · by_cases h : size < 1024000
    · have hq : (size : ℚ) / 1024 < 1000 := (sizeKB_lt_1000_iff size).mpr h
      unfold getSizeForL10n
      rw [if_pos hq]
      exact ⟨⟨fun _ => h, fun _ => rfl⟩,
        ⟨fun habs => absurd habs hne, fun h2 => absurd h2 (by omega)⟩,
        fun _ => rfl, fun h2 => absurd h2 (by omega)⟩
    · have hq : ¬((size : ℚ) / 1024 < 1000) := fun hc =>
        h ((sizeKB_lt_1000_iff size).mp hc)
      unfold getSizeForL10n
      rw [if_neg hq]
      exact ⟨⟨fun habs => absurd habs.symm hne, fun hlt => absurd hlt h⟩,
        ⟨fun _ => by omega, fun _ => rfl⟩,
        fun hlt => absurd hlt h, fun _ => rfl⟩
  · have hq : ¬(((1024000 : ℕ) : ℚ) / 1024 < 1000) := by norm_num
    unfold getSizeForL10n
    rw [if_neg hq]

/-- Witness for C6 at the spec's concrete examples: 500 bytes labels as
0.5 KB and 1500000 bytes labels as 1.4 MB. -/
theorem getSizeForL10n_label_boundary_witness :
    getSizeForL10n 500 = ⟨"attachmentSize", "0.5"⟩ ∧
    getSizeForL10n 1500000 = ⟨"attachmentSizeMB", "1.4"⟩ := by
  have h1 := (getSizeForL10n_label_boundary.1 500).2.2.1 (by norm_num)
  have h2 := (getSizeForL10n_label_boundary.1 1500000).2.2.2 (by norm_num)
  have e1 : toFixed1 (((500 : ℕ) : ℚ) / 1024) = "0.5" := by
    have hf : (⌊10 * (((500 : ℕ) : ℚ) / 1024) + 1 / 2⌋ : ℤ) = 5 := by
      rw [Int.floor_eq_iff]; norm_num
    simp only [toFixed1, hf]
    rfl
  have e2 : toFixed1 (((1500000 : ℕ) : ℚ) / 1024 / 1024) = "1.4" := by
    have hf : (⌊10 * (((1500000 : ℕ) : ℚ) / 1024 / 1024) + 1 / 2⌋ : ℤ) = 14 := by
      rw [Int.floor_eq_iff]; norm_num
    simp only [toFixed1, hf]
    rfl
  exact ⟨by rw [h1, e1], by rw [h2, e2]⟩

theorem lastIndexOf_of_not_mem (c : Char) (l : List Char) (h : c ∉ l) :
    lastIndexOf c l = -1 := by
  induction l with
  | nil => rfl
  | cons a rest ih =>
    have h1 : c ≠ a ∧ c ∉ rest := by
      constructor
      · intro e
        exact h (by simp [e])
      · intro m
        exact h (List.mem_cons_of_mem a m)
    have hneg : ¬((0 : Int) ≤ -1) := by decide
    simp [lastIndexOf, ih h1.2, hneg, Ne.symm h1.1]

theorem lastIndexOf_nonneg_of_mem (c : Char) (l : List Char) (h : c ∈ l) :
    0 ≤ lastIndexOf c l := by
  induction l with
  | nil => simp at h
  | cons a rest ih =>
    by_cases hr : c ∈ rest
    · have h0 := ih hr
      simp only [lastIndexOf]
      rw [if_pos h0]
      omega
    · have hac : a = c := by
        rcases List.mem_cons.mp h with h1 | h1
        · exact h1.symm
        · exact absurd h1 hr
      have hneg : lastIndexOf c rest = -1 := lastIndexOf_of_not_mem c rest hr
      simp [lastIndexOf, hneg, hac]

/-- C9: the displayed file name is the substring of the attachment name
after the last path separator, and the whole name when no separator occurs;
`argsOf` feeds exactly this displayed name to the markup templates. -/
theorem displayed_name_basename :
    (∀ name : List Char,
      ('/' ∉ name → displayedFileNameL name = name) ∧
      ('/' ∈ name →
        ∃ pre, name = pre ++ '/' :: displayedFileNameL name ∧
          '/' ∉ displayedFileNameL name)) ∧
    (∀ (a : Attachment) (hasError : Bool),
      (argsOf a hasError).fileName = displayedFileName a.name) := by
  constructor
  · intro name
    induction name with
    | nil =>
      exact ⟨fun _ => rfl, fun h => absurd h (by simp)⟩
    | cons a rest ih =>
      constructor
      · intro h
        have hneg : lastIndexOf '/' (a :: rest) = -1 :=
          lastIndexOf_of_not_mem _ _ h
        simp [displayedFileNameL, hneg]
      · intro h
        by_cases hr : '/' ∈ rest
        · have h0 : 0 ≤ lastIndexOf '/' rest := lastIndexOf_nonneg_of_mem _ _ hr
          obtain ⟨k, hk⟩ := Int.eq_ofNat_of_zero_le h0
          have hcons : lastIndexOf '/' (a :: rest) = k + 1 := by
            simp [lastIndexOf, hk]
          have hdfn : displayedFileNameL (a :: rest) = displayedFileNameL rest := by
            simp [displayedFileNameL, hcons, hk]
            rfl
          obtain ⟨pre, hpre, hnm⟩ := ih.2 hr
          refine ⟨a :: pre, ?_, ?_⟩
          · rw [hdfn, List.cons_append, ← hpre]
          · rw [hdfn]
            exact hnm
        · have ha : a = '/' := by
            rcases List.mem_cons.mp h with h1 | h1
            · exact h1.symm
            · exact absurd h1 hr
          have hneg : lastIndexOf '/' rest = -1 :=
            lastIndexOf_of_not_mem _ _ hr
          have hdfn : displayedFileNameL (a :: rest) = rest := by
            simp [displayedFileNameL, lastIndexOf, hneg, ha]
          refine ⟨[], ?_, ?_⟩
          · rw [hdfn, ha]
            rfl
          · rw [hdfn]
            exact hr
  · intro a hasError
    rfl

/-- Witness for C9 at the spec's concrete examples. -/
theorem displayed_name_basename_witness :
    (∃ pre, "a/b/c.png".data = pre ++ '/' :: displayedFileNameL "a/b/c.png".data ∧
      '/' ∉ displayedFileNameL "a/b/c.png".data) ∧
    displayedFileName "a/b/c.png" = "c.png" ∧
    displayedFileName "c.png" = "c.png" :=
  ⟨(displayed_name_basename.1 "a/b/c.png".data).2 (by decide), by decide, by decide⟩

theorem render_fields (env : Env) (r : AttachmentRenderer) (d : Dom) :
    (render env r d).probeCalls = (thumbnailStage env r.attachment).2 ∧
    (render env r d).thumbnailOutcome = (thumbnailStage env r.attachment).1 ∧
    (render env r d).branchData
      = branchStage env r.attachment (thumbnailStage env r.attachment).1 ∧
    (render env r d).containerId = (getAttachmentContainer r d).1 ∧
    (render env r d).renderer = (getAttachmentContainer r d).2.1 := by
  unfold render
  rcases hb : branchStage env ((getAttachmentContainer r d).2.1).attachment
      (thumbnailStage env ((getAttachmentContainer r d).2.1).attachment).1
    with e | dat <;>
  simp_all [getAttachmentContainer_attachment]

theorem render_result_of_branch_error (env : Env) (r : AttachmentRenderer)
    (d : Dom) (e : JsError)
    (hb : branchStage env r.attachment (thumbnailStage env r.attachment).1
      = .error e) :
    (render env r d).result = .error e ∧ (render env r d).contentId = none := by
  unfold render
  simp only [getAttachmentContainer_attachment]
  rw [hb]
  exact ⟨rfl, rfl⟩

theorem render_of_branch_ok (env : Env) (r : AttachmentRenderer) (d : Dom)
    (dat : RenderData)
    (hb : branchStage env r.attachment (thumbnailStage env r.attachment).1
      = .ok dat) :
    (render env r d).result
      = (finalStage env r.renderer (getAttachmentContainer r d).1 dat
          (getAttachmentContainer r d).2.2).1 ∧
    (render env r d).dom
      = (finalStage env r.renderer (getAttachmentContainer r d).1 dat
          (getAttachmentContainer r d).2.2).2.1 ∧
    (render env r d).contentId
      = (finalStage env r.renderer (getAttachmentContainer r d).1 dat
          (getAttachmentContainer r d).2.2).2.2 := by
  unfold render
  simp only [getAttachmentContainer_attachment, getAttachmentContainer_renderer]
  rw [hb]
  exact ⟨rfl, rfl, rfl⟩

theorem branchStage_skip (env : Env) (a : Attachment) (x : Option JsError)
    (hn : env.interpolate "attachment-nopreview-tmpl" (argsOf a x.isSome) = none) :
    branchStage env a (.error x)
      = .ok ⟨⟨"attachment-nopreview-tmpl", argsOf a x.isSome⟩, "nopreview", none⟩ := by
  simp [branchStage, getBaseMarkup, hn]

theorem branchStage_fallback_throw (env : Env) (a : Attachment)
    (x : Option JsError) (e : JsError)
    (hn : env.interpolate "attachment-nopreview-tmpl" (argsOf a x.isSome) = some e) :
    branchStage env a (.error x) = .error e := by
  simp [branchStage, getBaseMarkup, hn]

theorem branchStage_preview (env : Env) (a : Attachment) (url : String)
    (hp : env.interpolate "attachment-preview-tmpl" (argsOf a false) = none) :
    branchStage env a (.ok url)
      = .ok ⟨⟨"attachment-preview-tmpl", argsOf a false⟩, "preview", some url⟩ := by
  simp [branchStage, getBaseMarkup, hp]

theorem branchStage_preview_throw (env : Env) (a : Attachment) (url : String)
    (e : JsError)
    (hp : env.interpolate "attachment-preview-tmpl" (argsOf a false) = some e)
    (hn : env.interpolate "attachment-nopreview-tmpl" (argsOf a true) = none) :
    branchStage env a (.ok url)
      = .ok ⟨⟨"attachment-nopreview-tmpl", argsOf a true⟩, "nopreview", none⟩ := by
  simp [branchStage, getBaseMarkup, hp, hn]

theorem branchStage_error_source (env : Env) (a : Attachment)
    (t : Except (Option JsError) String) (e : JsError)
    (h : branchStage env a t = .error e) :
    ∃ b, env.interpolate "attachment-nopreview-tmpl" (argsOf a b) = some e := by
  rcases t with x | url
  · rcases hn : env.interpolate "attachment-nopreview-tmpl" (argsOf a x.isSome)
      with - | e2
    · rw [branchStage_skip env a x hn] at h
      exact absurd h (by simp)
    · rw [branchStage_fallback_throw env a x e2 hn] at h
      cases h
      exact ⟨x.isSome, hn⟩
  · rcases hp : env.interpolate "attachment-preview-tmpl" (argsOf a false)
      with - | e1
    · rw [branchStage_preview env a url hp] at h
      exact absurd h (by simp)
    · rcases hn : env.interpolate "attachment-nopreview-tmpl" (argsOf a true)
        with - | e2
      · rw [branchStage_preview_throw env a url e1 hp hn] at h
        exact absurd h (by simp)
      · refine ⟨true, ?_⟩
        rw [hn]
        simp [branchStage, getBaseMarkup, hp, hn] at h
        rw [h]

/-- C1 counterexample: an attachment of the image type whose blob is far
below the 1.5 MiB ceiling but whose top-level `size` equals the ceiling is
never probed: the thumbnail stage is skipped (rejection with no error), so
the gate does not read the blob's byte size as the claim states. -/
theorem thumbnail_gate_blob_size_cex :
    imgTopLevelBig.type = "img" ∧
    imgTopLevelBig.blob.size < MAX_THUMBNAIL_GENERATION_SIZE ∧
    (render env0 (AttachmentRenderer.forAttachment imgTopLevelBig) dom0).probeCalls
      = 0 ∧
    (render env0 (AttachmentRenderer.forAttachment imgTopLevelBig) dom0).thumbnailOutcome
      = .error none :=
  ⟨rfl, by decide, rfl, rfl⟩

/-- C1 (amended): `render()` attempts thumbnail derivation — invoking the
metadata probe exactly once — if and only if the attachment's `type` is
exactly `img` and the attachment's own top-level `size` field is strictly
below `MAX_THUMBNAIL_GENERATION_SIZE`; otherwise the probe is never invoked
and the pipeline starts from an already-rejected (error-free) thumbnail
stage, entering the fallback branch directly. -/
theorem thumbnail_gate_uses_toplevel_size (env : Env) (a : Attachment) (d : Dom) :
    (render env (AttachmentRenderer.forAttachment a) d).probeCalls
      = (if a.type = "img" ∧ a.size < MAX_THUMBNAIL_GENERATION_SIZE then 1 else 0) ∧
    (render env (AttachmentRenderer.forAttachment a) d).thumbnailOutcome
      = (if a.type = "img" ∧ a.size < MAX_THUMBNAIL_GENERATION_SIZE
          then (getThumbnail env a.blob).mapError some
          else .error none) ∧
    (¬(a.type = "img" ∧ a.size < MAX_THUMBNAIL_GENERATION_SIZE) →
      (render env (AttachmentRenderer.forAttachment a) d).probeCalls = 0 ∧
      (render env (AttachmentRenderer.forAttachment a) d).thumbnailOutcome
        = .error none ∧
      (render env (AttachmentRenderer.forAttachment a) d).branchData
        = branchStage env a (.error none)) := by
  obtain ⟨h1, h2, h3, -, -⟩ :=
    render_fields env (AttachmentRenderer.forAttachment a) d
  have ha : (AttachmentRenderer.forAttachment a).attachment = a := rfl
  rw [ha] at h1 h2 h3
  refine ⟨?_, ?_, fun hne => ?_⟩
  · rw [h1]
    unfold thumbnailStage
    split <;> rfl
  · rw [h2]
    unfold thumbnailStage
    split <;> rfl
  · rw [h1, h2, h3]
    unfold thumbnailStage
    rw [if_neg hne]
    exact ⟨rfl, rfl, rfl⟩

/-- Witness for the amended C1 on a concrete ineligible attachment. -/
theorem thumbnail_gate_uses_toplevel_size_witness :
    (render env0 (AttachmentRenderer.forAttachment vidSmall) dom0).probeCalls = 0 ∧
    (render env0 (AttachmentRenderer.forAttachment vidSmall) dom0).thumbnailOutcome
      = .error none ∧
    (render env0 (AttachmentRenderer.forAttachment vidSmall) dom0).branchData
      = branchStage env0 vidSmall (.error none) :=
  (thumbnail_gate_uses_toplevel_size env0 vidSmall dom0).2.2 (by decide)

/-- C10: the eligibility gate reads the attachment's own top-level `size`
and compares `type` to the exact string `img` (anything else is never
probed), while the size label of the markup arguments is computed from
`blob.size`. -/
theorem eligibility_toplevel_size_label_blob_size
    (env : Env) (a : Attachment) (d : Dom) :
    (render env (AttachmentRenderer.forAttachment a) d).probeCalls
      = (if a.type = "img" ∧ a.size < MAX_THUMBNAIL_GENERATION_SIZE then 1 else 0) ∧
    (a.type ≠ "img" →
      (render env (AttachmentRenderer.forAttachment a) d).probeCalls = 0) ∧
    (∀ hasError : Bool,
      (argsOf a hasError).sizeL10nId = (getSizeForL10n a.blob.size).l10nId ∧
      (argsOf a hasError).sizeL10nArgsN = (getSizeForL10n a.blob.size).n) := by
  obtain ⟨h1, -, -, -, -⟩ :=
    render_fields env (AttachmentRenderer.forAttachment a) d
  have ha : (AttachmentRenderer.forAttachment a).attachment = a := rfl
  rw [ha] at h1
  refine ⟨?_, fun hne => ?_, fun hasError => ⟨rfl, rfl⟩⟩
  · rw [h1]
    unfold thumbnailStage
    split <;> rfl
  · rw [h1]
    unfold thumbnailStage
    rw [if_neg (fun hc => hne hc.1)]

/-- Witness for C10 on a concrete non-image attachment. -/
theorem eligibility_toplevel_size_label_blob_size_witness :
    (render env0 (AttachmentRenderer.forAttachment vidSmall) dom0).probeCalls = 0 :=
  (eligibility_toplevel_size_label_blob_size env0 vidSmall dom0).2.1 (by decide)

/-- C3: the `corrupted` error class is interpolated exactly when the
fallback was reached with an actual error object: a thumbnail rejection
bearing an error yields the no-preview markup with the corrupted marker,
while the benign skip (exactly the non-image or oversized attachments)
yields the no-preview markup without it. -/
theorem corrupted_marker_iff_error (env : Env) (a : Attachment) (d : Dom) :
    (argsOf a true).errorClass = "corrupted" ∧
    (argsOf a false).errorClass = "" ∧
    ((render env (AttachmentRenderer.forAttachment a) d).thumbnailOutcome
        = Except.error none
      ↔ ¬(a.type = "img" ∧ a.size < MAX_THUMBNAIL_GENERATION_SIZE)) ∧
    (∀ e : JsError,
      (render env (AttachmentRenderer.forAttachment a) d).thumbnailOutcome
        = .error (some e) →
      env.interpolate "attachment-nopreview-tmpl" (argsOf a true) = none →
      (render env (AttachmentRenderer.forAttachment a) d).branchData
        = .ok ⟨⟨"attachment-nopreview-tmpl", argsOf a true⟩, "nopreview", none⟩) ∧
    ((render env (AttachmentRenderer.forAttachment a) d).thumbnailOutcome
        = .error none →
      env.interpolate "attachment-nopreview-tmpl" (argsOf a false) = none →
      (render env (AttachmentRenderer.forAttachment a) d).branchData
        = .ok ⟨⟨"attachment-nopreview-tmpl", argsOf a false⟩, "nopreview", none⟩) := by
  obtain ⟨-, h2, h3, -, -⟩ :=
    render_fields env (AttachmentRenderer.forAttachment a) d
  have ha : (AttachmentRenderer.forAttachment a).attachment = a := rfl
  rw [ha] at h2 h3
  refine ⟨rfl, rfl, ?_, ?_, ?_⟩
  · rw [h2]
    unfold thumbnailStage
    by_cases hc : a.type = "img" ∧ a.size < MAX_THUMBNAIL_GENERATION_SIZE
    · rw [if_pos hc]
      constructor
      · intro hx
        rcases hg : getThumbnail env a.blob with e | u <;>
          simp [hg, Except.mapError] at hx
      · intro hn
        exact absurd hc hn
    · rw [if_neg hc]
      simp [hc]
  · intro e hx hn
    rw [h3]
    rw [h2] at hx
    rw [hx]
    exact branchStage_skip env a (some e) hn
  · intro hx hn
    rw [h3]
    rw [h2] at hx
    rw [hx]
    exact branchStage_skip env a none hn

/-- Witness for C3: a failing metadata probe on an eligible image yields
the no-preview markup carrying the corrupted marker. -/
theorem corrupted_marker_iff_error_witness :
    (render envProbeFails (AttachmentRenderer.forAttachment imgSmall) dom0).branchData
      = .ok ⟨⟨"attachment-nopreview-tmpl", argsOf imgSmall true⟩, "nopreview", none⟩ :=
  (corrupted_marker_iff_error envProbeFails imgSmall dom0).2.2.2.1
    ⟨"corrupt image"⟩ rfl rfl

/-- C8: for an eligible image, `getThumbnail` probes natural width, height
and MIME type, computes the downsample hint at scale
`THUMBNAIL_SIZE / min(width, height)` with `THUMBNAIL_SIZE` being 100
device-independent pixels times the display pixel ratio, and resolves with
the blob's object URL concatenated with the hint fragment; a probe
rejection passes through unchanged. -/
theorem getThumbnail_downsample_hint :
    (∀ (env : Env) (blob : Blob) (w h : Nat) (mt : String),
      env.getSizeAndType blob = .ok ⟨w, h, mt⟩ →
      getThumbnail env blob
        = .ok (env.createObjectURL blob ++
            env.sizeNoMoreThan (THUMBNAIL_SIZE env / min (w : ℚ) (h : ℚ)))) ∧
    (∀ env : Env, THUMBNAIL_SIZE env = 100 * env.devicePixelRatio) ∧
    (∀ (env : Env) (blob : Blob) (e : JsError),
      env.getSizeAndType blob = .error e → getThumbnail env blob = .error e) := by
  refine ⟨fun env blob w h mt hok => ?_, fun env => rfl,
    fun env blob e herr => ?_⟩
  · unfold getThumbnail
    rw [hok]
  · unfold getThumbnail
    rw [herr]

/-- Witness for C8 on the concrete benign environment. -/
theorem getThumbnail_downsample_hint_witness :
    getThumbnail env0 ⟨100⟩
      = .ok (env0.createObjectURL ⟨100⟩ ++
          env0.sizeNoMoreThan
            (THUMBNAIL_SIZE env0 / min ((4 : ℕ) : ℚ) ((2 : ℕ) : ℚ))) :=
  getThumbnail_downsample_hint.1 env0 ⟨100⟩ 4 2 "image/jpeg" rfl

/-- C4: the draft strategy's `renderTo` promise is pending until the load
event fires; the one firing runs the handler exactly once, removes the
load listener whether the handler succeeds or throws, resolves with the
content-document body on success and rejects with the first exception
thrown by markup injection, localization post-processing or click-listener
attachment; a second load event is a no-op. -/
theorem draft_renderTo_load_lifecycle (env : Env) (m : Markup) (bodyId : Nat) :
    draftRenderTo.promise = PromiseState.pending ∧
    draftRenderTo.loadHandlerAttached = true ∧
    (fireLoad env m bodyId draftRenderTo).loadHandlerAttached = false ∧
    (fireLoad env m bodyId draftRenderTo).handlerRuns = 1 ∧
    (fireLoad env m bodyId draftRenderTo).promise
      = (match draftHandlerOutcome env m with
          | .ok _ => PromiseState.resolved bodyId
          | .error e => PromiseState.rejected e) ∧
    fireLoad env m bodyId (fireLoad env m bodyId draftRenderTo)
      = fireLoad env m bodyId draftRenderTo ∧
    (env.interpolateDraft m = none → env.translateFragment = none →
      env.attachClick = none → draftHandlerOutcome env m = .ok ()) ∧
    (∀ e, env.interpolateDraft m = some e →
      draftHandlerOutcome env m = .error e) ∧
    (∀ e, env.interpolateDraft m = none → env.translateFragment = some e →
      draftHandlerOutcome env m = .error e) ∧
    (∀ e, env.interpolateDraft m = none → env.translateFragment = none →
      env.attachClick = some e → draftHandlerOutcome env m = .error e) := by
  refine ⟨rfl, rfl, ?_, ?_, ?_, ?_, fun h1 h2 h3 => ?_, fun e h1 => ?_,
    fun e h1 h2 => ?_, fun e h1 h2 h3 => ?_⟩
  · cases hd : draftHandlerOutcome env m <;> simp [fireLoad, draftRenderTo, hd]
  · cases hd : draftHandlerOutcome env m <;> simp [fireLoad, draftRenderTo, hd]
  · cases hd : draftHandlerOutcome env m <;> simp [fireLoad, draftRenderTo, hd]
  · cases hd : draftHandlerOutcome env m <;> simp [fireLoad, draftRenderTo, hd]
  · simp [draftHandlerOutcome, h1, h2, h3]
  · simp [draftHandlerOutcome, h1]
  · simp [draftHandlerOutcome, h1, h2]
  · simp [draftHandlerOutcome, h1, h2, h3]

/-- Witness for C4: a throwing localization step rejects the draft promise
with that exception after one load firing. -/
theorem draft_renderTo_load_lifecycle_witness :
    draftHandlerOutcome envTranslateThrows markup0 = .error ⟨"l10n failure"⟩ ∧
    (fireLoad envTranslateThrows markup0 7 draftRenderTo).promise
      = PromiseState.rejected ⟨"l10n failure"⟩ := by
  have h := draft_renderTo_load_lifecycle envTranslateThrows markup0 7
  have hout := h.2.2.2.2.2.2.2.2.1 ⟨"l10n failure"⟩ rfl rfl
  refine ⟨hout, ?_⟩
  rw [h.2.2.2.2.1, hout]

theorem contentBody_after_classAdd (o : Option Node) (c : String) :
    (o.map (Node.classAdd c)).bind Node.contentBody = o.bind Node.contentBody := by
  cases o <;> simp [Node.classAdd_contentBody]

theorem finalStage_base_ok (env : Env) (cid : Nat) (dat : RenderData) (d : Dom) :
    (finalStage env .base cid dat d).1 = .ok () ∧
    (finalStage env .base cid dat d).2.2 = some cid := by
  unfold finalStage renderToStage
  by_cases hth : env.hasThumbnailNode dat.markup <;> simp [hth]

theorem finalStage_draft_error (env : Env) (cid : Nat) (dat : RenderData)
    (d : Dom) (e : JsError)
    (h : draftHandlerOutcome env dat.markup = .error e) :
    (finalStage env .draft cid dat d).1 = .error e ∧
    (finalStage env .draft cid dat d).2.2 = none := by
  unfold finalStage renderToStage
  rw [h]
  exact ⟨rfl, rfl⟩

theorem finalStage_draft_ok (env : Env) (cid : Nat) (dat : RenderData)
    (d : Dom) (b : Nat)
    (hout : draftHandlerOutcome env dat.markup = Except.ok ())
    (hb : (d.nodes cid).bind Node.contentBody = some b) :
    (finalStage env .draft cid dat d).1 = .ok () ∧
    (finalStage env .draft cid dat d).2.2 = some b := by
  have h2 : ((d.setNode cid (Node.classAdd dat.cssClass)).nodes cid).bind
      Node.contentBody = some b := by
    rw [Dom.setNode_nodes, if_pos rfl, contentBody_after_classAdd]
    exact hb
  unfold finalStage renderToStage
  simp only [hout, h2]
  by_cases hth : env.hasThumbnailNode dat.markup <;> simp [hth]

/-- C2 counterexample: with the preview-template interpolation throwing (and
everything else healthy), an exception raised while building the *preview*
markup does not reject `render()`: the catch handler recovers it into the
corrupted no-preview fallback and the render promise resolves. -/
theorem render_rejection_cex :
    envPreviewThrows.interpolate "attachment-preview-tmpl" (argsOf imgSmall false)
      = some ⟨"preview template missing"⟩ ∧
    (render envPreviewThrows (AttachmentRenderer.forAttachment imgSmall) dom0).result
      = Except.ok () ∧
    (render envPreviewThrows (AttachmentRenderer.forAttachment imgSmall) dom0).branchData
      = .ok ⟨⟨"attachment-nopreview-tmpl", argsOf imgSmall true⟩, "nopreview", none⟩ :=
  ⟨rfl, rfl, rfl⟩

/-- C2 (amended): a thumbnail-stage rejection is always recovered into the
fallback branch and never rejects `render()`; an exception thrown while
building the *preview* markup is likewise recovered (the catch attached
after the success handler turns it into the corrupted fallback); only an
exception thrown while building the *fallback* markup, or a rejection of
the strategy delegation, propagates as the rejection of `render()` — and
every rejection of `render()` arises from one of those two sources. -/
theorem render_rejection_taxonomy (env : Env) (a : Attachment) (d : Dom) :
    (∀ x, (render env (AttachmentRenderer.forAttachment a) d).thumbnailOutcome
        = .error x →
      env.interpolate "attachment-nopreview-tmpl" (argsOf a x.isSome) = none →
      (render env (AttachmentRenderer.forAttachment a) d).branchData
        = .ok ⟨⟨"attachment-nopreview-tmpl", argsOf a x.isSome⟩, "nopreview", none⟩) ∧
    (∀ url e, (render env (AttachmentRenderer.forAttachment a) d).thumbnailOutcome
        = .ok url →
      env.interpolate "attachment-preview-tmpl" (argsOf a false) = some e →
      env.interpolate "attachment-nopreview-tmpl" (argsOf a true) = none →
      (render env (AttachmentRenderer.forAttachment a) d).branchData
        = .ok ⟨⟨"attachment-nopreview-tmpl", argsOf a true⟩, "nopreview", none⟩) ∧
    (∀ x e, (render env (AttachmentRenderer.forAttachment a) d).thumbnailOutcome
        = .error x →
      env.interpolate "attachment-nopreview-tmpl" (argsOf a x.isSome) = some e →
      (render env (AttachmentRenderer.forAttachment a) d).result = .error e) ∧
    (∀ dat e, (render env (AttachmentRenderer.forAttachment a) d).branchData
        = .ok dat →
      a.isDraft = true → draftHandlerOutcome env dat.markup = .error e →
      (render env (AttachmentRenderer.forAttachment a) d).result = .error e) ∧
    (∀ dat, (render env (AttachmentRenderer.forAttachment a) d).branchData
        = .ok dat →
      (a.isDraft = false ∨ draftHandlerOutcome env dat.markup = Except.ok ()) →
      (render env (AttachmentRenderer.forAttachment a) d).result = Except.ok ()) ∧
    (∀ e, (render env (AttachmentRenderer.forAttachment a) d).result = .error e →
      (∃ b, env.interpolate "attachment-nopreview-tmpl" (argsOf a b) = some e) ∨
      (∃ dat, (render env (AttachmentRenderer.forAttachment a) d).branchData
          = .ok dat ∧
        a.isDraft = true ∧ draftHandlerOutcome env dat.markup = .error e)) := by
  obtain ⟨-, h2, h3, -, -⟩ :=
    render_fields env (AttachmentRenderer.forAttachment a) d
  have ha : (AttachmentRenderer.forAttachment a).attachment = a := rfl
  rw [ha] at h2 h3
  have hbody : a.isDraft = true →
      (((getAttachmentContainer (AttachmentRenderer.forAttachment a) d).2.2).nodes
          ((getAttachmentContainer (AttachmentRenderer.forAttachment a) d).1)).bind
        Node.contentBody = some (d.nextId + 1) := by
    intro hd
    have hren : (AttachmentRenderer.forAttachment a).renderer = .draft := by
      simp [AttachmentRenderer.forAttachment, hd]
    obtain ⟨-, hcid, n, hn, -, -, -, -, hdraft⟩ :=
      fresh_container_state (AttachmentRenderer.forAttachment a) d rfl
    rw [hcid, hn]
    simp [(hdraft hren).1]
  refine ⟨?_, ?_, ?_, ?_, ?_, ?_⟩
  · intro x hx hn
    rw [h2] at hx
    rw [h3, hx]
    exact branchStage_skip env a x hn
  · intro url e hx hp hn
    rw [h2] at hx
    rw [h3, hx]
    exact branchStage_preview_throw env a url e hp hn
  · intro x e hx hn
    rw [h2] at hx
    have hbs : branchStage env a (thumbnailStage env a).1 = .error e := by
      rw [hx]
      exact branchStage_fallback_throw env a x e hn
    exact (render_result_of_branch_error env
      (AttachmentRenderer.forAttachment a) d e hbs).1
  · intro dat e hbd hd hout
    rw [h3] at hbd
    have hren : (AttachmentRenderer.forAttachment a).renderer = .draft := by
      simp [AttachmentRenderer.forAttachment, hd]
    have hres := (render_of_branch_ok env
      (AttachmentRenderer.forAttachment a) d dat hbd).1
    rw [hres, hren]
    exact (finalStage_draft_error env _ dat _ e hout).1
  · intro dat hbd hcase
    rw [h3] at hbd
    have hres := (render_of_branch_ok env
      (AttachmentRenderer.forAttachment a) d dat hbd).1
    cases hd : a.isDraft
    · have hren : (AttachmentRenderer.forAttachment a).renderer = .base := by
        simp [AttachmentRenderer.forAttachment, hd]
      rw [hres, hren]
      exact (finalStage_base_ok env _ dat _).1
    · have hren : (AttachmentRenderer.forAttachment a).renderer = .draft := by
        simp [AttachmentRenderer.forAttachment, hd]
      rcases hcase with hfalse | hok
      · rw [hd] at hfalse
        exact absurd hfalse (by simp)
      · rw [hres, hren]
        exact (finalStage_draft_ok env _ dat _ (d.nextId + 1) hok (hbody hd)).1
  · intro e hres
    rcases hbd : branchStage env a (thumbnailStage env a).1 with e2 | dat
    · have hr2 := (render_result_of_branch_error env
        (AttachmentRenderer.forAttachment a) d e2 hbd).1
      rw [hr2] at hres
      injection hres with he
      subst he
      exact Or.inl (branchStage_error_source env a _ _ hbd)
    · have hr2 := (render_of_branch_ok env
        (AttachmentRenderer.forAttachment a) d dat hbd).1
      cases hd : a.isDraft
      · have hren : (AttachmentRenderer.forAttachment a).renderer = .base := by
          simp [AttachmentRenderer.forAttachment, hd]
        rw [hr2, hren, (finalStage_base_ok env _ dat _).1] at hres
        exact absurd hres (by simp)
      · have hren : (AttachmentRenderer.forAttachment a).renderer = .draft := by
          simp [AttachmentRenderer.forAttachment, hd]
        rcases hout : draftHandlerOutcome env dat.markup with eh | u
        · rw [hr2, hren, (finalStage_draft_error env _ dat _ eh hout).1] at hres
          injection hres with he
          subst he
          refine Or.inr ⟨dat, ?_, rfl, hout⟩
          rw [h3]
          exact hbd
        · rw [hr2, hren,
            (finalStage_draft_ok env _ dat _ (d.nextId + 1) hout (hbody hd)).1] at hres
          exact absurd hres (by simp)

/-- Witness for the amended C2: a throwing fallback-template interpolation
rejects `render()` with that exception. -/
theorem render_rejection_taxonomy_witness :
    (render envNopreviewThrows (AttachmentRenderer.forAttachment vidSmall) dom0).result
      = .error ⟨"fallback template missing"⟩ :=
  (render_rejection_taxonomy envNopreviewThrows vidSmall dom0).2.2.1 none
    ⟨"fallback template missing"⟩ rfl rfl

theorem Node.classAdd_thumbnailBg (c : String) (n : Node) :
    (Node.classAdd c n).thumbnailBg = n.thumbnailBg := rfl

theorem Node.classAdd_innerHTML (c : String) (n : Node) :
    (Node.classAdd c n).innerHTML = n.innerHTML := rfl

theorem finalStage_base_node (env : Env) (cid : Nat) (dat : RenderData)
    (dm : Dom) (n0 : Node) (h : dm.nodes cid = some n0) :
    ∃ nf, (finalStage env .base cid dat dm).2.1.nodes cid = some nf ∧
      dat.cssClass ∈ nf.classes ∧
      nf.thumbnailBg
        = (if env.hasThumbnailNode dat.markup then some (bgUrlOf dat.url)
           else n0.thumbnailBg) ∧
      nf.innerHTML = some dat.markup := by
  unfold finalStage renderToStage
  by_cases hth : env.hasThumbnailNode dat.markup
  · simp [hth, Dom.setNode_nodes, h]
    exact ⟨Node.mem_classAdd_self _ _, by simp [Node.classAdd_innerHTML]⟩
  · simp [hth, Dom.setNode_nodes, h]
    exact ⟨Node.mem_classAdd_self _ _, by simp [Node.classAdd_thumbnailBg],
      by simp [Node.classAdd_innerHTML]⟩

theorem finalStage_draft_nodes (env : Env) (cid : Nat) (dat : RenderData)
    (dm : Dom) (b : Nat) (n0 nb : Node)
    (hout : draftHandlerOutcome env dat.markup = Except.ok ())
    (hne : b ≠ cid)
    (h0 : dm.nodes cid = some n0)
    (hb0 : n0.contentBody = some b)
    (hnb : dm.nodes b = some nb) :
    (finalStage env .draft cid dat dm).2.2 = some b ∧
    (∃ nc, (finalStage env .draft cid dat dm).2.1.nodes cid = some nc ∧
      dat.cssClass ∈ nc.classes) ∧
    (∃ nn, (finalStage env .draft cid dat dm).2.1.nodes b = some nn ∧
      dat.cssClass ∈ nn.classes ∧
      nn.thumbnailBg
        = (if env.hasThumbnailNode dat.markup then some (bgUrlOf dat.url)
           else nb.thumbnailBg) ∧
      nn.innerHTML = some dat.markup) := by
  have hne2 : ¬(cid = b) := fun hcc => hne hcc.symm
  have h2 : ((dm.setNode cid (Node.classAdd dat.cssClass)).nodes cid).bind
      Node.contentBody = some b := by
    rw [Dom.setNode_nodes, if_pos rfl, h0]
    simp [Node.classAdd_contentBody, hb0]
  unfold finalStage renderToStage
  simp only [hout, h2]
  by_cases hth : env.hasThumbnailNode dat.markup
  · simp [hth, Dom.setNode_nodes, hne, hne2, h0, hnb]
    exact ⟨Node.mem_classAdd_self _ _, Node.mem_classAdd_self _ _,
      by simp [Node.classAdd_innerHTML]⟩
  · simp [hth, Dom.setNode_nodes, hne, hne2, h0, hnb]
    exact ⟨Node.mem_classAdd_self _ _, Node.mem_classAdd_self _ _,
      by simp [Node.classAdd_thumbnailBg], by simp [Node.classAdd_innerHTML]⟩

/-- C7: in every successful `render()` run the chosen decoration class is
present on both the outer container node and the content hosting node, and
the content node's thumbnail descendant carries the background-image URL
exactly when the hosted markup yields a `.thumbnail` node (no background
image is set otherwise). -/
theorem render_decorations (env : Env) (a : Attachment) (d : Dom)
    (dat : RenderData)
    (hbd : (render env (AttachmentRenderer.forAttachment a) d).branchData
      = .ok dat)
    (hres : (render env (AttachmentRenderer.forAttachment a) d).result
      = Except.ok ()) :
    ∃ cid, (render env (AttachmentRenderer.forAttachment a) d).contentId
        = some cid ∧
      (∃ nc, (render env (AttachmentRenderer.forAttachment a) d).dom.nodes
          ((render env (AttachmentRenderer.forAttachment a) d).containerId)
            = some nc ∧
        dat.cssClass ∈ nc.classes) ∧
      (∃ nn, (render env (AttachmentRenderer.forAttachment a) d).dom.nodes cid
          = some nn ∧
        dat.cssClass ∈ nn.classes ∧
        nn.thumbnailBg
          = (if env.hasThumbnailNode dat.markup then some (bgUrlOf dat.url)
             else none) ∧
        nn.innerHTML = some dat.markup) := by
  obtain ⟨-, -, h3, h4, -⟩ :=
    render_fields env (AttachmentRenderer.forAttachment a) d
  have ha : (AttachmentRenderer.forAttachment a).attachment = a := rfl
  rw [ha] at h3
  rw [h3] at hbd
  obtain ⟨hres2, hdom2, hcont2⟩ :=
    render_of_branch_ok env (AttachmentRenderer.forAttachment a) d dat hbd
  obtain ⟨-, hcid, n0, hn0, hcls0, hdata0, hbg0, hbase0, hdraft0⟩ :=
    fresh_container_state (AttachmentRenderer.forAttachment a) d rfl
  cases hd : a.isDraft
  · have hren : (AttachmentRenderer.forAttachment a).renderer = .base := by
      simp [AttachmentRenderer.forAttachment, hd]
    rw [hren] at hres2 hdom2 hcont2
    obtain ⟨nf, hnf, hmem, hbg, hinner⟩ :=
      finalStage_base_node env
        (getAttachmentContainer (AttachmentRenderer.forAttachment a) d).1 dat
        (getAttachmentContainer (AttachmentRenderer.forAttachment a) d).2.2 n0
        (by rw [hcid]; exact hn0)
    refine ⟨(getAttachmentContainer (AttachmentRenderer.forAttachment a) d).1,
      ?_, ?_, ?_⟩
    · rw [hcont2,
        (finalStage_base_ok env
          (getAttachmentContainer (AttachmentRenderer.forAttachment a) d).1 dat
          (getAttachmentContainer (AttachmentRenderer.forAttachment a) d).2.2).2]
    · rw [hdom2, h4]
      exact ⟨nf, hnf, hmem⟩
    · rw [hdom2]
      refine ⟨nf, hnf, hmem, ?_, hinner⟩
      rw [hbg, hbg0]
  · have hren : (AttachmentRenderer.forAttachment a).renderer = .draft := by
      simp [AttachmentRenderer.forAttachment, hd]
    rw [hren] at hres2 hdom2 hcont2
    rcases hout : draftHandlerOutcome env dat.markup with eh | u
    · rw [hres2, (finalStage_draft_error env _ dat _ eh hout).1] at hres
      exact absurd hres (by simp)
    · have hneq : d.nextId + 1
          ≠ (getAttachmentContainer (AttachmentRenderer.forAttachment a) d).1 := by
        rw [hcid]
        omega
      obtain ⟨hc2, ⟨nc, hnc, hmemc⟩, nn, hnn, hmemn, hbgn, hinnern⟩ :=
        finalStage_draft_nodes env
          (getAttachmentContainer (AttachmentRenderer.forAttachment a) d).1 dat
          (getAttachmentContainer (AttachmentRenderer.forAttachment a) d).2.2
          (d.nextId + 1) n0 (Node.empty "body") hout hneq
          (by rw [hcid]; exact hn0) (hdraft0 hren).1 (hdraft0 hren).2
      refine ⟨d.nextId + 1, ?_, ?_, ?_⟩
      · rw [hcont2, hc2]
      · rw [hdom2, h4]
        exact ⟨nc, hnc, hmemc⟩
      · rw [hdom2]
        exact ⟨nn, hnn, hmemn, hbgn, hinnern⟩

/-- Witness for C7 on a concrete successful preview run. -/
theorem render_decorations_witness :
    ∃ cid, (render env0 (AttachmentRenderer.forAttachment imgSmall) dom0).contentId
        = some cid ∧
      (∃ nc, (render env0 (AttachmentRenderer.forAttachment imgSmall) dom0).dom.nodes
          ((render env0 (AttachmentRenderer.forAttachment imgSmall) dom0).containerId)
            = some nc ∧
        "preview" ∈ nc.classes) ∧
      (∃ nn, (render env0 (AttachmentRenderer.forAttachment imgSmall) dom0).dom.nodes cid
          = some nn ∧
        "preview" ∈ nn.classes ∧
        nn.thumbnailBg
          = (if env0.hasThumbnailNode
                ⟨"attachment-preview-tmpl", argsOf imgSmall false⟩ then
              some (bgUrlOf (some "blob:app/0001#-moz-samplesize=2"))
             else none) ∧
        nn.innerHTML
          = some ⟨"attachment-preview-tmpl", argsOf imgSmall false⟩) :=
  render_decorations env0 imgSmall dom0
    ⟨⟨"attachment-preview-tmpl", argsOf imgSmall false⟩, "preview",
      some "blob:app/0001#-moz-samplesize=2"⟩ rfl rfl
